import Mathlib

/-!
Verification of the C++ signal generator of cxx-qt
(crates/cxx-qt-gen/src/generator/cpp/signal.rs).

The generator is embedded shallowly: `parameter_types_and_values`,
`generate_cpp_free_signal` and `generate_cpp_signals` are translated from the
Rust source, with machine strings as Lean `String`, `Vec` as `List`, and the
`?`-propagated `syn::Result` as `Except String`.  The external collaborators
that the source calls but that are outside the verified source set — the
type-mapping oracle `syn_type_to_cpp_type`, the qualified-name resolution
`ParsedCxxMappings::cxx` and the naming oracle `QSignalName::from` — are
modelled from the specification.
-/

set_option autoImplicit false

namespace CxxQtGen

/-- Source-language types appearing in signal parameters, as far as this
development distinguishes them: the 32-bit integer and owned-pointer types of
the specification scenarios, plain named types resolved through the mapping
oracle, and an unresolvable type carrying its error message. -/
inductive RustTy where
  | i32 : RustTy
  | uniquePtr : RustTy → RustTy
  | named : String → RustTy
  | unsupported : String → RustTy
deriving DecidableEq

/-- A function parameter as parsed from the bridge: identifier and source
type (`ParsedFunctionParameter` in the source). -/
structure ParsedFunctionParameter where
  ident : String
  ty : RustTy
deriving DecidableEq

/-- The cross-language mappings (`ParsedCxxMappings` in the source): the
cxx-name overrides and the namespace qualifiers, as association lists keyed by
the source identifier. -/
structure ParsedCxxMappings where
  cxx_names : List (String × String)
  namespaces : List (String × String)
deriving DecidableEq

/-- Modelled from the spec: the type-mapping oracle's qualified-name
resolution (`ParsedCxxMappings::cxx`, outside the verified source set) —
apply the optional cross-language name override, then the optional namespace
qualifier. -/
def ParsedCxxMappings.cxx (m : ParsedCxxMappings) (ident : String) : String :=
  let mapped := (m.cxx_names.lookup ident).getD ident
  match m.namespaces.lookup ident with
  | some ns => "::" ++ ns ++ "::" ++ mapped
  | none => mapped

/-- Modelled from the spec: the type-mapping oracle resolving a parameter's
source type to its target textual type (`syn_type_to_cpp_type`, outside the
verified source set).  The 32-bit integer becomes `::std::int32_t`, the owned
pointer becomes `::std::unique_ptr<...>`, a named type is resolved through the
qualified-name resolution, and an unresolvable type fails with its
type-resolution error. -/
def syn_type_to_cpp_type : RustTy → ParsedCxxMappings → Except String String
  | .i32, _ => .ok "::std::int32_t"
  | .uniquePtr inner, m => do
      let s ← syn_type_to_cpp_type inner m
      pure ("::std::unique_ptr<" ++ s ++ ">")
  | .named n, m => .ok (m.cxx n)
  | .unsupported msg, _ => .error msg

/-- A cpp/rust name pair (`CombinedIdent` in the source). -/
structure CombinedIdent where
  cpp : String
  rust : String
deriving DecidableEq

/-- A parsed signal declaration (`ParsedSignal` in the source, without the
`method` token stream, which the generator never reads). -/
structure ParsedSignal where
  qobject_ident : String
  parameters : List ParsedFunctionParameter
  ident : CombinedIdent
  mutable : Bool
  safe : Bool
  inherit : Bool
deriving DecidableEq

/-- The naming oracle's result (`QSignalName` in the source). -/
structure QSignalName where
  name : CombinedIdent
  connect_name : CombinedIdent
deriving DecidableEq

/-- Modelled from the spec: the naming oracle deriving the exposed signal and
connect identifiers from a signal record (`QSignalName::from`, outside the
verified source set) — the signal name is the parsed cpp/rust pair and the
connect name appends `Connect` on the cpp side. -/
def QSignalName.fromSignal (signal : ParsedSignal) : QSignalName :=
  { name := signal.ident
    connect_name :=
      { cpp := signal.ident.cpp ++ "Connect"
        rust := "on_" ++ signal.ident.rust } }

/-- The owner type's naming record (`QObjectName` in the source; only the
cpp class ident is read by this generator). -/
structure QObjectName where
  cpp_class : CombinedIdent
deriving DecidableEq

/-- A generated text fragment (`CppFragment` in the source): declaration-only
header text, definition-only source text, or a paired header and source. -/
inductive CppFragment where
  | Header : String → CppFragment
  | Source : String → CppFragment
  | Pair : String → String → CppFragment
deriving DecidableEq

/-- The per-owner aggregate of generated fragments
(`GeneratedCppQObjectBlocks` in the source; only `methods` is touched by this
generator). -/
structure GeneratedCppQObjectBlocks where
  methods : List CppFragment
deriving DecidableEq

/-- Combined output of possible parameter lines (`Parameters` in the
source). -/
structure Parameters where
  types_closure : String
  types_signal : String
  values_closure : String
deriving DecidableEq

/-- Representation of the self pair (`SelfValue` in the source). -/
structure SelfValue where
  ident : String
  ty : String
deriving DecidableEq

/-- Rust's `Vec::join` on strings: elements interleaved with the
separator. -/
def joinStr (sep : String) : List String → String
  | [] => ""
  | [x] => x
  | x :: xs => x ++ sep ++ joinStr sep xs

/-- Map a fallible function over a list, stopping at the first error — the
semantics of a Rust `for` loop whose body uses `?`. -/
def mapExcept {α β ε : Type} (f : α → Except ε β) : List α → Except ε (List β)
  | [] => .ok []
  | x :: xs => do
      let y ← f x
      let ys ← mapExcept f xs
      pure (y :: ys)

/-- One iteration of the parameter loop of `parameter_types_and_values`: the
resolved `"type ident"` entry paired with the move-wrapped forwarding
entry. -/
def parameter_entry (cxx_mappings : ParsedCxxMappings)
    (parameter : ParsedFunctionParameter) : Except String (String × String) := do
  let cxx_ty ← syn_type_to_cpp_type parameter.ty cxx_mappings
  let ident_str := parameter.ident
  pure (cxx_ty ++ " " ++ ident_str, "::std::move(" ++ ident_str ++ ")")

/-- From given parameters, mappings, and self value construct the combined
parameter lines (`parameter_types_and_values` in the source).  The source's
single loop pushing onto two vectors is the entry map; the self entry is then
prepended to the closure types and to the forwarding values, and the three
lists are comma-joined. -/
def parameter_types_and_values (parameters : List ParsedFunctionParameter)
    (cxx_mappings : ParsedCxxMappings) (self_value : SelfValue) :
    Except String Parameters := do
  let entries ← mapExcept (parameter_entry cxx_mappings) parameters
  let parameter_types_closure := entries.map Prod.fst
  let parameter_values_closure := entries.map Prod.snd
  let parameters_types_signal := joinStr ", " parameter_types_closure
  pure
    { types_closure := joinStr ", " ((self_value.ty ++ "&") :: parameter_types_closure)
      types_signal := parameters_types_signal
      values_closure := joinStr ", " (self_value.ident :: parameter_values_closure) }

/-- Generate C++ blocks for a free signal on an existing QObject
(`generate_cpp_free_signal` in the source).  The emitted pair's text is the
source's two format strings with the interpolations spelled out. -/
def generate_cpp_free_signal (signal : ParsedSignal)
    (cxx_mappings : ParsedCxxMappings) : Except String CppFragment := do
  let qobject_ident := signal.qobject_ident
  let qobject_ident_namespaced := cxx_mappings.cxx qobject_ident
  let idents := QSignalName.fromSignal signal
  let signal_ident := idents.name.cpp
  let connect_ident := idents.connect_name.cpp
  let parameters ← parameter_types_and_values signal.parameters cxx_mappings
      { ident := "self", ty := qobject_ident_namespaced }
  let parameters_types_closure := parameters.types_closure
  let parameters_types_signal := parameters.types_signal
  let parameters_values_closure := parameters.values_closure
  pure (CppFragment.Pair
    ("::QMetaObject::Connection\n" ++
      qobject_ident ++ "_" ++ connect_ident ++ "(" ++ qobject_ident_namespaced ++
      "& self, ::rust::Fn<void(" ++ parameters_types_closure ++
      ")> func, ::Qt::ConnectionType type);\n")
    ("::QMetaObject::Connection\n" ++
      qobject_ident ++ "_" ++ connect_ident ++ "(" ++ qobject_ident_namespaced ++
      "& self, ::rust::Fn<void(" ++ parameters_types_closure ++
      ")> func, ::Qt::ConnectionType type)\n" ++
      "\x7b\n" ++
      "    return ::QObject::connect(\n" ++
      "        &self,\n" ++
      "        &" ++ qobject_ident_namespaced ++ "::" ++ signal_ident ++ ",\n" ++
      "        &self,\n" ++
      "        [&, func = ::std::move(func)](" ++ parameters_types_signal ++
      ") \x7b\n" ++
      "            const ::rust::cxxqtlib1::MaybeLockGuard<" ++
      qobject_ident_namespaced ++ "> guard(self);\n" ++
      "            func(" ++ parameters_values_closure ++ ");\n" ++
      "        \x7d,\n" ++
      "        type);\n" ++
      "\x7d\n"))

/-- The fragments one iteration of the `generate_cpp_signals` loop pushes for
one signal: the `Q_SIGNAL` declaration header (only when the signal is not
inherited) followed by the connect pair. -/
def signal_fragments (qobject_ident : String) (cxx_mappings : ParsedCxxMappings)
    (signal : ParsedSignal) : Except String (List CppFragment) := do
  let idents := QSignalName.fromSignal signal
  let signal_ident := idents.name.cpp
  let connect_ident := idents.connect_name.cpp
  let parameters ← parameter_types_and_values signal.parameters cxx_mappings
      { ident := "*this", ty := qobject_ident }
  let parameters_types_closure := parameters.types_closure
  let parameters_types_signal := parameters.types_signal
  let parameters_values_closure := parameters.values_closure
  let declFrag := CppFragment.Header
    ("Q_SIGNAL void " ++ signal_ident ++ "(" ++ parameters_types_signal ++ ");")
  let pairFrag := CppFragment.Pair
    ("::QMetaObject::Connection " ++ connect_ident ++ "(::rust::Fn<void(" ++
      parameters_types_closure ++ ")> func, ::Qt::ConnectionType type);")
    ("::QMetaObject::Connection\n" ++
      qobject_ident ++ "::" ++ connect_ident ++ "(::rust::Fn<void(" ++
      parameters_types_closure ++ ")> func, ::Qt::ConnectionType type)\n" ++
      "\x7b\n" ++
      "    return ::QObject::connect(this,\n" ++
      "        &" ++ qobject_ident ++ "::" ++ signal_ident ++ ",\n" ++
      "        this,\n" ++
      "        [&, func = ::std::move(func)](" ++ parameters_types_signal ++
      ") \x7b\n" ++
      "            const ::rust::cxxqtlib1::MaybeLockGuard<" ++ qobject_ident ++
      "> guard(*this);\n" ++
      "            func(" ++ parameters_values_closure ++ ");\n" ++
      "        \x7d,\n" ++
      "        type);\n" ++
      "\x7d\n")
  pure ((if signal.inherit then [] else [declFrag]) ++ [pairFrag])

/-- The loop of `generate_cpp_signals`: fold over the signals in declared
order, appending each signal's fragments to the accumulated `methods`;
a `?`-propagated error aborts the whole fold. -/
def generate_cpp_signals_go (qobject_ident : String)
    (cxx_mappings : ParsedCxxMappings) :
    List ParsedSignal → List CppFragment → Except String (List CppFragment)
  | [], acc => .ok acc
  | signal :: rest, acc => do
      let frags ← signal_fragments qobject_ident cxx_mappings signal
      generate_cpp_signals_go qobject_ident cxx_mappings rest (acc ++ frags)

/-- Generate the C++ blocks for all signals of one generated QObject
(`generate_cpp_signals` in the source). -/
def generate_cpp_signals (signals : List ParsedSignal)
    (qobject_idents : QObjectName) (cxx_mappings : ParsedCxxMappings) :
    Except String GeneratedCppQObjectBlocks := do
  let qobject_ident := qobject_idents.cpp_class.cpp
  let methods ← generate_cpp_signals_go qobject_ident cxx_mappings signals []
  pure { methods := methods }

/-- The forwarding-values sequence before joining: self's identifier, then
each parameter identifier wrapped in `::std::move`, in declared order. -/
def forwarding_values_list (parameters : List ParsedFunctionParameter)
    (self_value : SelfValue) : List String :=
  self_value.ident :: parameters.map (fun p => "::std::move(" ++ p.ident ++ ")")

/-- The parameter types alone, resolved through the mapping oracle in
declared order. -/
def resolved_types (parameters : List ParsedFunctionParameter)
    (cxx_mappings : ParsedCxxMappings) : Except String (List String) :=
  mapExcept (fun p => syn_type_to_cpp_type p.ty cxx_mappings) parameters

/-- The `Parameters` value produced when every parameter type resolves to the
corresponding entry of `tys`. -/
def mkParameters (tys : List String) (parameters : List ParsedFunctionParameter)
    (self_value : SelfValue) : Parameters :=
  let tcl := List.zipWith (fun t p => t ++ " " ++ p.ident) tys parameters
  let vcl := List.zipWith (fun _ p => "::std::move(" ++ p.ident ++ ")") tys parameters
  { types_closure := joinStr ", " ((self_value.ty ++ "&") :: tcl)
    types_signal := joinStr ", " tcl
    values_closure := joinStr ", " (self_value.ident :: vcl) }

/-! ### Helper lemmas about the fallible map -/

theorem mapExcept_length {α β ε : Type} (f : α → Except ε β) :
    ∀ {xs : List α} {l : List β}, mapExcept f xs = .ok l → l.length = xs.length := by
  intro xs
  induction xs with
  | nil => intro l h; cases h; rfl
  | cons x xs ih =>
      intro l h
      cases hx : f x with
      | error e => simp [mapExcept, hx, Bind.bind, Except.bind] at h
      | ok y =>
          cases hxs : mapExcept f xs with
          | error e => simp [mapExcept, hx, hxs, Bind.bind, Except.bind] at h
          | ok ys =>
              simp [mapExcept, hx, hxs, Bind.bind, Except.bind, pure, Except.pure] at h
              subst h
              simp [ih hxs]

theorem mapExcept_error_mem {α β ε : Type} (f : α → Except ε β) :
    ∀ {xs : List α} {e : ε}, mapExcept f xs = .error e → ∃ x ∈ xs, f x = .error e := by
  intro xs
  induction xs with
  | nil => intro e h; simp [mapExcept] at h
  | cons x xs ih =>
      intro e h
      cases hx : f x with
      | error e0 =>
          simp [mapExcept, hx, Bind.bind, Except.bind] at h
          exact ⟨x, by simp, by rw [hx, h]⟩
      | ok y =>
          cases hxs : mapExcept f xs with
          | error e0 =>
              simp [mapExcept, hx, hxs, Bind.bind, Except.bind] at h
              obtain ⟨z, hz, hfz⟩ := ih hxs
              exact ⟨z, by simp [hz], by rw [hfz, h]⟩
          | ok ys => simp [mapExcept, hx, hxs, Bind.bind, Except.bind, pure, Except.pure] at h

theorem mapExcept_error_of_mem {α β ε : Type} (f : α → Except ε β) :
    ∀ {xs : List α}, (∃ x ∈ xs, ∃ e, f x = .error e) →
      ∃ e2, mapExcept f xs = .error e2 ∧ ∃ x ∈ xs, f x = .error e2 := by
  intro xs
  induction xs with
  | nil => intro h; simp at h
  | cons x xs ih =>
      intro h
      cases hx : f x with
      | error e0 =>
          refine ⟨e0, ?_, x, by simp, hx⟩
          simp [mapExcept, hx, Bind.bind, Except.bind]
      | ok y =>
          obtain ⟨z, hz, e, hfz⟩ := h
          have hz2 : z ∈ xs := by
            rcases List.mem_cons.mp hz with h1 | h1
            · subst h1; rw [hx] at hfz; cases hfz
            · exact h1
          obtain ⟨e2, hmap, z2, hz3, hfz2⟩ := ih ⟨z, hz2, e, hfz⟩
          refine ⟨e2, ?_, z2, by simp [hz3], hfz2⟩
          simp [mapExcept, hx, hmap, Bind.bind, Except.bind]

theorem zipWith_const_snd {α β γ : Type} (g : α → γ) :
    ∀ (tys : List β) (ps : List α), tys.length = ps.length →
      List.zipWith (fun _ p => g p) tys ps = ps.map g
  | [], [], _ => rfl
  | [], _ :: _, h => by simp at h
  | _ :: _, [], h => by simp at h
  | t :: tys, p :: ps, h => by
      simp only [List.zipWith, List.map, List.cons.injEq, true_and]
      exact zipWith_const_snd g tys ps (by simpa using h)

/-! ### Shape of `parameter_types_and_values` -/

theorem mapExcept_entry_eq (m : ParsedCxxMappings) :
    ∀ ps : List ParsedFunctionParameter,
      mapExcept (parameter_entry m) ps =
        Except.map (fun tys => List.zipWith
            (fun t p => (t ++ " " ++ p.ident, "::std::move(" ++ p.ident ++ ")")) tys ps)
          (resolved_types ps m)
  | [] => rfl
  | p :: ps => by
      have ih := mapExcept_entry_eq m ps
      cases hp : syn_type_to_cpp_type p.ty m with
      | error e =>
          simp [mapExcept, resolved_types, parameter_entry, hp, Bind.bind, Except.bind,
            Except.map]
      | ok t =>
          cases hr : resolved_types ps m with
          | error e =>
              have hr2 : mapExcept (fun p => syn_type_to_cpp_type p.ty m) ps = .error e := hr
              rw [hr] at ih
              simp only [mapExcept, resolved_types, parameter_entry, hp, Bind.bind, Except.bind,
                pure, Except.pure]
              rw [ih, hr2]
              simp [Except.map]
          | ok tys =>
              have hr2 : mapExcept (fun p => syn_type_to_cpp_type p.ty m) ps = .ok tys := hr
              rw [hr] at ih
              simp only [mapExcept, resolved_types, parameter_entry, hp, Bind.bind, Except.bind,
                pure, Except.pure]
              rw [ih, hr2]
              simp [Except.map, List.zipWith]

theorem parameter_types_and_values_eq (ps : List ParsedFunctionParameter)
    (m : ParsedCxxMappings) (sv : SelfValue) :
    parameter_types_and_values ps m sv =
      Except.map (fun tys => mkParameters tys ps sv) (resolved_types ps m) := by
  cases hr : resolved_types ps m with
  | error e =>
      have he := mapExcept_entry_eq m ps
      rw [hr] at he
      simp [parameter_types_and_values, he, Bind.bind, Except.bind, Except.map]
  | ok tys =>
      have he := mapExcept_entry_eq m ps
      rw [hr] at he
      simp [parameter_types_and_values, he, Bind.bind, Except.bind, Except.map, pure,
        Except.pure, mkParameters, List.map_zipWith]

theorem parameter_types_and_values_error {ps : List ParsedFunctionParameter}
    {m : ParsedCxxMappings} {sv : SelfValue} {e : String} :
    parameter_types_and_values ps m sv = .error e ↔ resolved_types ps m = .error e := by
  rw [parameter_types_and_values_eq]
  cases resolved_types ps m <;> simp [Except.map]

theorem parameter_types_and_values_ok {ps : List ParsedFunctionParameter}
    {m : ParsedCxxMappings} {sv : SelfValue} {P : Parameters}
    (h : parameter_types_and_values ps m sv = .ok P) :
    ∃ tys, resolved_types ps m = .ok tys ∧ tys.length = ps.length ∧
      P = mkParameters tys ps sv := by
  rw [parameter_types_and_values_eq] at h
  cases hr : resolved_types ps m with
  | error e => rw [hr] at h; simp [Except.map] at h
  | ok tys =>
      rw [hr] at h
      simp [Except.map] at h
      exact ⟨tys, rfl, mapExcept_length _ hr, h.symm⟩

/-! ### Shape of the member-signal-set generator -/

theorem signal_fragments_shape {q : String} {m : ParsedCxxMappings} {s : ParsedSignal}
    {l : List CppFragment} (h : signal_fragments q m s = .ok l) :
    (s.inherit = true → ∃ hd src, l = [CppFragment.Pair hd src]) ∧
    (s.inherit = false → ∃ d hd src, l = [CppFragment.Header d, CppFragment.Pair hd src]) := by
  cases hp : parameter_types_and_values s.parameters m ⟨"*this", q⟩ with
  | error e => simp [signal_fragments, hp, Bind.bind, Except.bind] at h
  | ok P =>
      simp only [signal_fragments, hp, Bind.bind, Except.bind, pure, Except.pure,
        Except.ok.injEq] at h
      cases hi : s.inherit with
      | true =>
          rw [hi] at h
          simp at h
          exact ⟨fun _ => ⟨_, _, h.symm⟩, fun hc => absurd hc (by simp)⟩
      | false =>
          rw [hi] at h
          simp at h
          exact ⟨fun hc => absurd hc (by simp), fun _ => ⟨_, _, _, h.symm⟩⟩

theorem signal_fragments_error_iff {q : String} {m : ParsedCxxMappings} {s : ParsedSignal}
    {e : String} :
    signal_fragments q m s = .error e ↔
      parameter_types_and_values s.parameters m ⟨"*this", q⟩ = .error e := by
  cases hp : parameter_types_and_values s.parameters m ⟨"*this", q⟩ with
  | error e0 => simp [signal_fragments, hp, Bind.bind, Except.bind]
  | ok P => simp [signal_fragments, hp, Bind.bind, Except.bind, pure, Except.pure]

theorem generate_cpp_signals_go_ok {q : String} {m : ParsedCxxMappings} :
    ∀ {sigs : List ParsedSignal} {acc out : List CppFragment},
      generate_cpp_signals_go q m sigs acc = .ok out →
      ∃ chunks : List (List CppFragment), out = acc ++ chunks.flatten ∧
        List.Forall₂ (fun s c => signal_fragments q m s = .ok c) sigs chunks := by
  intro sigs
  induction sigs with
  | nil =>
      intro acc out h
      cases h
      exact ⟨[], by simp, List.Forall₂.nil⟩
  | cons s rest ih =>
      intro acc out h
      cases hf : signal_fragments q m s with
      | error e => simp [generate_cpp_signals_go, hf, Bind.bind, Except.bind] at h
      | ok frags =>
          simp only [generate_cpp_signals_go, hf, Bind.bind, Except.bind] at h
          obtain ⟨chunks, hout, hall⟩ := ih h
          exact ⟨frags :: chunks, by simp [hout], List.Forall₂.cons hf hall⟩

theorem generate_cpp_signals_go_error_of_mem {q : String} {m : ParsedCxxMappings} :
    ∀ {sigs : List ParsedSignal} (acc : List CppFragment),
      (∃ s ∈ sigs, ∃ e, signal_fragments q m s = .error e) →
      ∃ e2, generate_cpp_signals_go q m sigs acc = .error e2 ∧
        ∃ s ∈ sigs, signal_fragments q m s = .error e2 := by
  intro sigs
  induction sigs with
  | nil => intro acc h; simp at h
  | cons s rest ih =>
      intro acc h
      cases hf : signal_fragments q m s with
      | error e0 =>
          refine ⟨e0, ?_, s, by simp, hf⟩
          simp [generate_cpp_signals_go, hf, Bind.bind, Except.bind]
      | ok frags =>
          obtain ⟨z, hz, e, hfz⟩ := h
          have hz2 : z ∈ rest := by
            rcases List.mem_cons.mp hz with h1 | h1
            · subst h1; rw [hf] at hfz; cases hfz
            · exact h1
          obtain ⟨e2, hgo, z2, hz3, hfz2⟩ := ih (acc ++ frags) ⟨z, hz2, e, hfz⟩
          refine ⟨e2, ?_, z2, by simp [hz3], hfz2⟩
          simp [generate_cpp_signals_go, hf, Bind.bind, Except.bind, hgo]

theorem generate_cpp_signals_eq (signals : List ParsedSignal) (q : QObjectName)
    (m : ParsedCxxMappings) :
    generate_cpp_signals signals q m =
      Except.map (fun ms => GeneratedCppQObjectBlocks.mk ms)
        (generate_cpp_signals_go q.cpp_class.cpp m signals []) := by
  cases hg : generate_cpp_signals_go q.cpp_class.cpp m signals [] with
  | error e => simp [generate_cpp_signals, hg, Bind.bind, Except.bind, Except.map]
  | ok ms =>
      simp [generate_cpp_signals, hg, Bind.bind, Except.bind, Except.map, pure, Except.pure]

theorem zipWith_move_eq (tys : List String) :
    ∀ (ps : List ParsedFunctionParameter), tys.length = ps.length →
      List.zipWith (fun _ p => "::std::move(" ++ p.ident ++ ")") tys ps =
        ps.map (fun p => "::std::move(" ++ p.ident ++ ")") := by
  induction tys with
  | nil =>
      intro ps h
      cases ps with
      | nil => rfl
      | cons p ps => simp at h
  | cons t tys ih =>
      intro ps h
      cases ps with
      | nil => simp at h
      | cons p ps => simp [List.zipWith, ih ps (by simpa using h)]

/-! ### The claims -/

/-- Claim C1: in the member-signal-set generator, every signal with
`inherit = true` contributes exactly one fragment, the declaration+definition
connect pair, and no declaration-only fragment; every signal with
`inherit = false` contributes exactly one declaration-only fragment followed
immediately by its connect pair.  The whole output is the in-order
concatenation of these per-signal contributions. -/
theorem member_signal_set_fragment_shape (signals : List ParsedSignal)
    (q : QObjectName) (m : ParsedCxxMappings) (g : GeneratedCppQObjectBlocks)
    (h : generate_cpp_signals signals q m = .ok g) :
    ∃ chunks : List (List CppFragment), g.methods = chunks.flatten ∧
      List.Forall₂ (fun s c =>
        (s.inherit = true → ∃ hd src, c = [CppFragment.Pair hd src]) ∧
        (s.inherit = false →
          ∃ d hd src, c = [CppFragment.Header d, CppFragment.Pair hd src]))
        signals chunks := by
  rw [generate_cpp_signals_eq] at h
  cases hg : generate_cpp_signals_go q.cpp_class.cpp m signals [] with
  | error e => rw [hg] at h; simp [Except.map] at h
  | ok ms =>
      rw [hg] at h
      simp only [Except.map, Except.ok.injEq] at h
      obtain ⟨chunks, hout, hall⟩ := generate_cpp_signals_go_ok hg
      refine ⟨chunks, ?_, ?_⟩
      · rw [← h]
        simp [hout]
      · exact List.Forall₂.imp (fun s c hf => signal_fragments_shape hf) hall

theorem member_signal_set_fragment_shape_witness :
    ∃ chunks : List (List CppFragment),
      ((generate_cpp_signals
          [⟨"MyObject", [], ⟨"baseName", "existing_signal"⟩, true, true, true⟩,
           ⟨"MyObject", [], ⟨"dataChanged", "data_changed"⟩, true, true, false⟩]
          ⟨⟨"MyObject", "MyObjectRust"⟩⟩ ⟨[], []⟩).toOption.getD ⟨[]⟩).methods =
        chunks.flatten ∧
      List.Forall₂ (fun (s : ParsedSignal) (c : List CppFragment) =>
        (s.inherit = true → ∃ hd src, c = [CppFragment.Pair hd src]) ∧
        (s.inherit = false →
          ∃ d hd src, c = [CppFragment.Header d, CppFragment.Pair hd src]))
        [⟨"MyObject", [], ⟨"baseName", "existing_signal"⟩, true, true, true⟩,
         ⟨"MyObject", [], ⟨"dataChanged", "data_changed"⟩, true, true, false⟩] chunks :=
  member_signal_set_fragment_shape
    [⟨"MyObject", [], ⟨"baseName", "existing_signal"⟩, true, true, true⟩,
     ⟨"MyObject", [], ⟨"dataChanged", "data_changed"⟩, true, true, false⟩]
    ⟨⟨"MyObject", "MyObjectRust"⟩⟩ ⟨[], []⟩ _ (by rfl)

/-- Claim C2: for every signal whose parameter types all resolve, the
forwarding-values list has one more element than the declared parameters; its
head is self's identifier with no move wrapper, and its elements 1..n are the
parameter identifiers wrapped in `::std::move`, in declared order; the
builder's forwarding string is exactly this list comma-joined. -/
theorem forwarding_values_spec (ps : List ParsedFunctionParameter)
    (m : ParsedCxxMappings) (sv : SelfValue) (P : Parameters)
    (h : parameter_types_and_values ps m sv = .ok P) :
    P.values_closure = joinStr ", " (forwarding_values_list ps sv) ∧
    (forwarding_values_list ps sv).length = ps.length + 1 ∧
    (forwarding_values_list ps sv)[0]? = some sv.ident ∧
    ∀ i, i < ps.length →
      (forwarding_values_list ps sv)[i + 1]? =
        (ps[i]?).map (fun p => "::std::move(" ++ p.ident ++ ")") := by
  obtain ⟨tys, hr, hlen, hP⟩ := parameter_types_and_values_ok h
  refine ⟨?_, by simp [forwarding_values_list], by simp [forwarding_values_list], ?_⟩
  · subst hP
    simp [mkParameters, forwarding_values_list, zipWith_move_eq tys ps hlen]
  · intro i hi
    simp [forwarding_values_list]

theorem forwarding_values_spec_witness :
    ((parameter_types_and_values
        [⟨"trivial", .i32⟩, ⟨"opaque", .uniquePtr (.named "QColor")⟩]
        ⟨[], []⟩ ⟨"*this", "MyObject"⟩).toOption.getD ⟨"", "", ""⟩).values_closure =
      joinStr ", " (forwarding_values_list
        [⟨"trivial", .i32⟩, ⟨"opaque", .uniquePtr (.named "QColor")⟩]
        ⟨"*this", "MyObject"⟩) ∧
    (forwarding_values_list
        [⟨"trivial", .i32⟩, ⟨"opaque", .uniquePtr (.named "QColor")⟩]
        ⟨"*this", "MyObject"⟩).length =
      ([⟨"trivial", .i32⟩, ⟨"opaque", .uniquePtr (.named "QColor")⟩] :
        List ParsedFunctionParameter).length + 1 ∧
    (forwarding_values_list
        [⟨"trivial", .i32⟩, ⟨"opaque", .uniquePtr (.named "QColor")⟩]
        ⟨"*this", "MyObject"⟩)[0]? = some "*this" ∧
    ∀ i, i < ([⟨"trivial", .i32⟩, ⟨"opaque", .uniquePtr (.named "QColor")⟩] :
        List ParsedFunctionParameter).length →
      (forwarding_values_list
          [⟨"trivial", .i32⟩, ⟨"opaque", .uniquePtr (.named "QColor")⟩]
          ⟨"*this", "MyObject"⟩)[i + 1]? =
        (([⟨"trivial", .i32⟩, ⟨"opaque", .uniquePtr (.named "QColor")⟩] :
          List ParsedFunctionParameter)[i]?).map
          (fun p => "::std::move(" ++ p.ident ++ ")") :=
  forwarding_values_spec _ _ _ _ (by rfl)

/-- Claim C3 counterexample: for a zero-parameter signal the builder's
closure-parameter type list is self's type text with a reference suffix
appended — `MyObject&` — which is not equal to self's type text `MyObject`,
so the list does not equal exactly self's type text as claimed. -/
theorem closure_self_type_counterexample :
    parameter_types_and_values [] ⟨[], []⟩ ⟨"*this", "MyObject"⟩ =
      .ok ⟨"MyObject&", "", "*this"⟩ ∧ ("MyObject&" : String) ≠ "MyObject" :=
  ⟨rfl, by decide⟩

/-- Claim C3 (amended): for a signal with zero parameters, the
signal-parameter list is the empty string, the closure-parameter type list is
exactly self's type text with the reference suffix `&` appended, and the
forwarding-values list is exactly self's identifier. -/
theorem zero_parameter_lists (m : ParsedCxxMappings) (sv : SelfValue) :
    parameter_types_and_values [] m sv = .ok ⟨sv.ty ++ "&", "", sv.ident⟩ := rfl

/-- Claim C5: both generators are deterministic — runs on identical inputs
(equal signal lists, naming records and mapping-oracle contents) produce
identical output text.  The embedding is a pure function of its inputs, so
equal inputs give equal outputs. -/
theorem generation_deterministic (signals1 signals2 : List ParsedSignal)
    (q1 q2 : QObjectName) (m1 m2 : ParsedCxxMappings) (sig1 sig2 : ParsedSignal)
    (hs : signals1 = signals2) (hq : q1 = q2) (hm : m1 = m2) (hf : sig1 = sig2) :
    generate_cpp_signals signals1 q1 m1 = generate_cpp_signals signals2 q2 m2 ∧
    generate_cpp_free_signal sig1 m1 = generate_cpp_free_signal sig2 m2 := by
  subst hs; subst hq; subst hm; subst hf
  exact ⟨rfl, rfl⟩

theorem generation_deterministic_witness :
    generate_cpp_signals
        [⟨"MyObject", [⟨"trivial", .i32⟩], ⟨"dataChanged", "data_changed"⟩,
          true, true, false⟩]
        ⟨⟨"MyObject", "MyObjectRust"⟩⟩ ⟨[], []⟩ =
      generate_cpp_signals
        [⟨"MyObject", [⟨"trivial", .i32⟩], ⟨"dataChanged", "data_changed"⟩,
          true, true, false⟩]
        ⟨⟨"MyObject", "MyObjectRust"⟩⟩ ⟨[], []⟩ ∧
    generate_cpp_free_signal
        ⟨"ObjRust", [], ⟨"signalRustName", "signal_rust_name"⟩, true, true, false⟩
        ⟨[], []⟩ =
      generate_cpp_free_signal
        ⟨"ObjRust", [], ⟨"signalRustName", "signal_rust_name"⟩, true, true, false⟩
        ⟨[], []⟩ :=
  generation_deterministic _ _ _ _ _ _ _ _ rfl rfl rfl rfl

set_option maxRecDepth 10000 in
/-- Claim C6: on owner `MyObject` with parameters `trivial : i32` and
`opaque : UniquePtr<QColor>` and `inherit = false`, the member-signal-set
generator emits exactly the `Q_SIGNAL` declaration and the connect
declaration of the specification scenario (and the matching definition
body). -/
theorem member_signal_concrete_scenario :
    generate_cpp_signals
        [⟨"MyObject",
          [⟨"trivial", .i32⟩, ⟨"opaque", .uniquePtr (.named "QColor")⟩],
          ⟨"dataChanged", "data_changed"⟩, true, true, false⟩]
        ⟨⟨"MyObject", "MyObjectRust"⟩⟩ ⟨[], []⟩ =
      .ok ⟨[CppFragment.Header
              "Q_SIGNAL void dataChanged(::std::int32_t trivial, ::std::unique_ptr<QColor> opaque);",
            CppFragment.Pair
              "::QMetaObject::Connection dataChangedConnect(::rust::Fn<void(MyObject&, ::std::int32_t trivial, ::std::unique_ptr<QColor> opaque)> func, ::Qt::ConnectionType type);"
              "::QMetaObject::Connection\nMyObject::dataChangedConnect(::rust::Fn<void(MyObject&, ::std::int32_t trivial, ::std::unique_ptr<QColor> opaque)> func, ::Qt::ConnectionType type)\n\x7b\n    return ::QObject::connect(this,\n        &MyObject::dataChanged,\n        this,\n        [&, func = ::std::move(func)](::std::int32_t trivial, ::std::unique_ptr<QColor> opaque) \x7b\n            const ::rust::cxxqtlib1::MaybeLockGuard<MyObject> guard(*this);\n            func(*this, ::std::move(trivial), ::std::move(opaque));\n        \x7d,\n        type);\n\x7d\n"]⟩ :=
  rfl

theorem generate_cpp_signals_error_of_param (signals : List ParsedSignal)
    (q : QObjectName) (m : ParsedCxxMappings)
    (h : ∃ s ∈ signals, ∃ p ∈ s.parameters, ∃ e,
      syn_type_to_cpp_type p.ty m = .error e) :
    ∃ e2, generate_cpp_signals signals q m = .error e2 ∧
      ∃ s ∈ signals, ∃ p ∈ s.parameters,
        syn_type_to_cpp_type p.ty m = .error e2 := by
  obtain ⟨s, hs, p, hp, e, he⟩ := h
  obtain ⟨e1, hr1, -⟩ := mapExcept_error_of_mem
    (fun p => syn_type_to_cpp_type p.ty m) ⟨p, hp, e, he⟩
  have hsf : signal_fragments q.cpp_class.cpp m s = .error e1 :=
    signal_fragments_error_iff.mpr (parameter_types_and_values_error.mpr hr1)
  obtain ⟨e2, hgo, s2, hs2, hsf2⟩ :=
    generate_cpp_signals_go_error_of_mem [] ⟨s, hs, e1, hsf⟩
  have hp2 : mapExcept (fun (p : ParsedFunctionParameter) =>
      syn_type_to_cpp_type p.ty m) s2.parameters = .error e2 :=
    parameter_types_and_values_error.mp (signal_fragments_error_iff.mp hsf2)
  obtain ⟨p2, hp2mem, hp2err⟩ :=
    mapExcept_error_mem (fun (p : ParsedFunctionParameter) =>
      syn_type_to_cpp_type p.ty m) hp2
  refine ⟨e2, ?_, s2, hs2, p2, hp2mem, hp2err⟩
  rw [generate_cpp_signals_eq, hgo]
  rfl

/-- Claim C4 counterexample: with two signals in one member-signal-set call,
the second of which has a parameter the oracle cannot resolve, the whole call
returns only the error — the first signal generates fine on its own, so its
generation *is* affected by the other signal's failure, contradicting the
claim that no other signal's generation is affected. -/
theorem error_abort_counterexample :
    (generate_cpp_signals
        [⟨"MyObject", [], ⟨"goodSignal", "good_signal"⟩, true, true, false⟩]
        ⟨⟨"MyObject", "MyObjectRust"⟩⟩ ⟨[], []⟩).isOk = true ∧
    generate_cpp_signals
        [⟨"MyObject", [], ⟨"goodSignal", "good_signal"⟩, true, true, false⟩,
         ⟨"MyObject", [⟨"p", .unsupported "unsupported type"⟩],
          ⟨"badSignal", "bad_signal"⟩, true, true, false⟩]
        ⟨⟨"MyObject", "MyObjectRust"⟩⟩ ⟨[], []⟩ = .error "unsupported type" :=
  ⟨rfl, rfl⟩

/-- Claim C4 (amended): if the type-mapping oracle fails to resolve some
parameter's source type, the error is propagated unchanged — the call's error
is verbatim the oracle's error for one of the parameters — and the entire
enclosing member-signal-set generation call is aborted: it returns that error
and no fragments at all, including fragments of other signals in the same
list. -/
theorem error_propagation_aborts_call (signals : List ParsedSignal)
    (q : QObjectName) (m : ParsedCxxMappings)
    (h : ∃ s ∈ signals, ∃ p ∈ s.parameters, ∃ e,
      syn_type_to_cpp_type p.ty m = .error e) :
    ∃ e2, generate_cpp_signals signals q m = .error e2 ∧
      ∃ s ∈ signals, ∃ p ∈ s.parameters,
        syn_type_to_cpp_type p.ty m = .error e2 :=
  generate_cpp_signals_error_of_param signals q m h

theorem error_propagation_aborts_call_witness :
    ∃ e2, generate_cpp_signals
        [⟨"MyObject", [⟨"param", .unsupported "unknown type"⟩],
          ⟨"badSignal", "bad_signal"⟩, true, true, false⟩]
        ⟨⟨"MyObject", "MyObjectRust"⟩⟩ ⟨[], []⟩ = .error e2 ∧
      ∃ s ∈ ([⟨"MyObject", [⟨"param", .unsupported "unknown type"⟩],
          ⟨"badSignal", "bad_signal"⟩, true, true, false⟩] : List ParsedSignal),
        ∃ p ∈ s.parameters, syn_type_to_cpp_type p.ty ⟨[], []⟩ = .error e2 :=
  error_propagation_aborts_call
    [⟨"MyObject", [⟨"param", .unsupported "unknown type"⟩],
      ⟨"badSignal", "bad_signal"⟩, true, true, false⟩]
    ⟨⟨"MyObject", "MyObjectRust"⟩⟩ ⟨[], []⟩
    ⟨⟨"MyObject", [⟨"param", .unsupported "unknown type"⟩],
      ⟨"badSignal", "bad_signal"⟩, true, true, false⟩, by simp,
      ⟨"param", .unsupported "unknown type"⟩, by simp, "unknown type", rfl⟩

set_option maxRecDepth 10000 in
/-- Claim C7: for a free signal with zero parameters whose owner `ObjRust` is
renamed to `ObjCpp` under namespace `mynamespace`, the emitted self parameter
type and the internal qualified signal reference in the definition body both
render as `::mynamespace::ObjCpp`; the full emitted pair is the specification
scenario's text. -/
theorem free_signal_namespaced_scenario :
    ParsedCxxMappings.cxx ⟨[("ObjRust", "ObjCpp")], [("ObjRust", "mynamespace")]⟩
        "ObjRust" = "::mynamespace::ObjCpp" ∧
    generate_cpp_free_signal
        ⟨"ObjRust", [], ⟨"signalCxxName", "signal_rust_name"⟩, true, true, false⟩
        ⟨[("ObjRust", "ObjCpp")], [("ObjRust", "mynamespace")]⟩ =
      .ok (CppFragment.Pair
        "::QMetaObject::Connection\nObjRust_signalCxxNameConnect(::mynamespace::ObjCpp& self, ::rust::Fn<void(::mynamespace::ObjCpp&)> func, ::Qt::ConnectionType type);\n"
        "::QMetaObject::Connection\nObjRust_signalCxxNameConnect(::mynamespace::ObjCpp& self, ::rust::Fn<void(::mynamespace::ObjCpp&)> func, ::Qt::ConnectionType type)\n\x7b\n    return ::QObject::connect(\n        &self,\n        &::mynamespace::ObjCpp::signalCxxName,\n        &self,\n        [&, func = ::std::move(func)]() \x7b\n            const ::rust::cxxqtlib1::MaybeLockGuard<::mynamespace::ObjCpp> guard(self);\n            func(self);\n        \x7d,\n        type);\n\x7d\n") :=
  ⟨rfl, rfl⟩

/-- Claim C8: renaming a parameter type in the mapping oracle changes only
the emitted parameter type text: for the same parameter list under two
different oracles, the forwarding-values string (which carries the parameter
identifiers) is identical, and each signal-parameter entry is the resolved
type followed by the unchanged declared identifier, in order. -/
theorem type_rename_frame_effect (ps : List ParsedFunctionParameter)
    (m1 m2 : ParsedCxxMappings) (sv : SelfValue) (tys1 tys2 : List String)
    (h1 : resolved_types ps m1 = .ok tys1) (h2 : resolved_types ps m2 = .ok tys2) :
    ∃ P1 P2, parameter_types_and_values ps m1 sv = .ok P1 ∧
      parameter_types_and_values ps m2 sv = .ok P2 ∧
      P1.values_closure = P2.values_closure ∧
      P1.types_signal =
        joinStr ", " (List.zipWith (fun t p => t ++ " " ++ p.ident) tys1 ps) ∧
      P2.types_signal =
        joinStr ", " (List.zipWith (fun t p => t ++ " " ++ p.ident) tys2 ps) := by
  refine ⟨mkParameters tys1 ps sv, mkParameters tys2 ps sv, ?_, ?_, ?_, rfl, rfl⟩
  · rw [parameter_types_and_values_eq, h1]; rfl
  · rw [parameter_types_and_values_eq, h2]; rfl
  · have h1m : mapExcept (fun (p : ParsedFunctionParameter) =>
        syn_type_to_cpp_type p.ty m1) ps = .ok tys1 := h1
    have h2m : mapExcept (fun (p : ParsedFunctionParameter) =>
        syn_type_to_cpp_type p.ty m2) ps = .ok tys2 := h2
    have l1 := mapExcept_length _ h1m
    have l2 := mapExcept_length _ h2m
    simp [mkParameters, zipWith_move_eq tys1 ps l1, zipWith_move_eq tys2 ps l2]

theorem type_rename_frame_effect_witness :
    ∃ P1 P2,
      parameter_types_and_values [⟨"mapped", .named "A"⟩] ⟨[], []⟩
          ⟨"*this", "MyObject"⟩ = .ok P1 ∧
      parameter_types_and_values [⟨"mapped", .named "A"⟩] ⟨[("A", "A1")], []⟩
          ⟨"*this", "MyObject"⟩ = .ok P2 ∧
      P1.values_closure = P2.values_closure ∧
      P1.types_signal = joinStr ", "
        (List.zipWith (fun (t : String) (p : ParsedFunctionParameter) =>
          t ++ " " ++ p.ident) ["A"] [⟨"mapped", .named "A"⟩]) ∧
      P2.types_signal = joinStr ", "
        (List.zipWith (fun (t : String) (p : ParsedFunctionParameter) =>
          t ++ " " ++ p.ident) ["A1"] [⟨"mapped", .named "A"⟩]) :=
  type_rename_frame_effect [⟨"mapped", .named "A"⟩] ⟨[], []⟩ ⟨[("A", "A1")], []⟩
    ⟨"*this", "MyObject"⟩ ["A"] ["A1"] rfl rfl

/-- Claim C9: in the free-signal generator, the emitted connect function's
name concatenates the owner's original (unmapped) identifier, an underscore
and the derived connect name, even when the mapping oracle renames or
namespaces the owner type, while the self parameter's type is the fully
qualified mapped name. -/
theorem free_signal_connect_name_unmapped (signal : ParsedSignal)
    (m : ParsedCxxMappings) (P : Parameters)
    (h : parameter_types_and_values signal.parameters m
        ⟨"self", m.cxx signal.qobject_ident⟩ = .ok P) :
    ∃ src, generate_cpp_free_signal signal m =
      .ok (CppFragment.Pair
        ("::QMetaObject::Connection\n" ++ signal.qobject_ident ++ "_" ++
          (QSignalName.fromSignal signal).connect_name.cpp ++ "(" ++
          m.cxx signal.qobject_ident ++ "& self, ::rust::Fn<void(" ++
          P.types_closure ++ ")> func, ::Qt::ConnectionType type);\n") src) := by
  simp only [generate_cpp_free_signal, h, Bind.bind, Except.bind, pure, Except.pure]
  exact ⟨_, rfl⟩

theorem free_signal_connect_name_unmapped_witness :
    ∃ src, generate_cpp_free_signal
        ⟨"ObjRust", [], ⟨"renamedSignal", "renamed_signal"⟩, true, true, false⟩
        ⟨[("ObjRust", "ObjCpp")], [("ObjRust", "mynamespace")]⟩ =
      .ok (CppFragment.Pair
        ("::QMetaObject::Connection\n" ++ "ObjRust" ++ "_" ++
          (QSignalName.fromSignal
            ⟨"ObjRust", [], ⟨"renamedSignal", "renamed_signal"⟩, true, true,
              false⟩).connect_name.cpp ++ "(" ++
          ParsedCxxMappings.cxx ⟨[("ObjRust", "ObjCpp")], [("ObjRust", "mynamespace")]⟩
            "ObjRust" ++ "& self, ::rust::Fn<void(" ++
          ("::mynamespace::ObjCpp&" : String) ++
          ")> func, ::Qt::ConnectionType type);\n") src) :=
  free_signal_connect_name_unmapped
    ⟨"ObjRust", [], ⟨"renamedSignal", "renamed_signal"⟩, true, true, false⟩
    ⟨[("ObjRust", "ObjCpp")], [("ObjRust", "mynamespace")]⟩
    ⟨"::mynamespace::ObjCpp&", "", "self"⟩ (by rfl)

/-- Claim C10: the member-signal-set generation is atomic — if any parameter
of any signal in the list fails type-mapping, the call returns an error and
never a fragment aggregate, so fragments built for earlier signals are
discarded rather than returned. -/
theorem member_signal_set_atomic (signals : List ParsedSignal)
    (q : QObjectName) (m : ParsedCxxMappings)
    (h : ∃ s ∈ signals, ∃ p ∈ s.parameters, ∃ e,
      syn_type_to_cpp_type p.ty m = .error e) :
    (∃ e2, generate_cpp_signals signals q m = .error e2) ∧
      ∀ g : GeneratedCppQObjectBlocks, generate_cpp_signals signals q m ≠ .ok g := by
  obtain ⟨e2, hgen, -⟩ := generate_cpp_signals_error_of_param signals q m h
  refine ⟨⟨e2, hgen⟩, fun g hg => ?_⟩
  rw [hgen] at hg
  cases hg

theorem member_signal_set_atomic_witness :
    (∃ e2, generate_cpp_signals
        [⟨"MyObject", [], ⟨"firstSignal", "first_signal"⟩, true, true, false⟩,
         ⟨"MyObject", [⟨"arg", .unsupported "opaque type T"⟩],
          ⟨"secondSignal", "second_signal"⟩, true, true, false⟩]
        ⟨⟨"MyObject", "MyObjectRust"⟩⟩ ⟨[], []⟩ = .error e2) ∧
      ∀ g : GeneratedCppQObjectBlocks,
        generate_cpp_signals
          [⟨"MyObject", [], ⟨"firstSignal", "first_signal"⟩, true, true, false⟩,
           ⟨"MyObject", [⟨"arg", .unsupported "opaque type T"⟩],
            ⟨"secondSignal", "second_signal"⟩, true, true, false⟩]
          ⟨⟨"MyObject", "MyObjectRust"⟩⟩ ⟨[], []⟩ ≠ .ok g :=
  member_signal_set_atomic
    [⟨"MyObject", [], ⟨"firstSignal", "first_signal"⟩, true, true, false⟩,
     ⟨"MyObject", [⟨"arg", .unsupported "opaque type T"⟩],
      ⟨"secondSignal", "second_signal"⟩, true, true, false⟩]
    ⟨⟨"MyObject", "MyObjectRust"⟩⟩ ⟨[], []⟩
    ⟨⟨"MyObject", [⟨"arg", .unsupported "opaque type T"⟩],
      ⟨"secondSignal", "second_signal"⟩, true, true, false⟩, by simp,
      ⟨"arg", .unsupported "opaque type T"⟩, by simp, "opaque type T", rfl⟩

end CxxQtGen
